import Mathlib

/-!
Verification of the `dagster-stitch` Stitch API resource
(`src/dagster_stitch/resources.py`) against its natural-language
specification.  The Python source is shallowly embedded: pure helpers
become Lean functions, the two polling loops become recursions over the
per-iteration responses supplied by an explicit environment, and Python
runtime errors (TypeError from cross-type comparisons, ValueError from
strptime, IndexError from list subscripts) are made explicit in an
`Except`/result type.
-/

namespace DagsterStitch

/-! ### Wall-clock instants

`datetime.datetime` values.  Python compares two datetimes as instants,
which for normalized values is exactly the lexicographic comparison of
the (year, month, day, hour, minute, second, microsecond) fields. -/

structure DateTime where
  year : Nat
  month : Nat
  day : Nat
  hour : Nat
  minute : Nat
  second : Nat
  usec : Nat
deriving DecidableEq

def DateTime.fields (t : DateTime) : List Nat :=
  [t.year, t.month, t.day, t.hour, t.minute, t.second, t.usec]

/-- Lexicographic strict comparison of equal-length field lists. -/
def lexLtB : List Nat → List Nat → Bool
  | a :: as, b :: bs => if a = b then lexLtB as bs else decide (a < b)
  | _, _ => false

/-- Python `datetime < datetime`. -/
def DateTime.ltB (a b : DateTime) : Bool := lexLtB a.fields b.fields

/-! ### `datetime.strptime(s, "%Y-%m-%dT%H:%M:%SZ")`

The parser accepts exactly a four-digit year, two-digit month / day /
hour / minute / second with the literal separators of the format, and
the constructed `datetime` additionally validates the field ranges
(`ValueError` otherwise, modeled as `none`). -/

def isLeapYear (y : Nat) : Bool :=
  (y % 4 == 0 && y % 100 != 0) || y % 400 == 0

def daysInMonth (y m : Nat) : Nat :=
  if m = 2 then (if isLeapYear y then 29 else 28)
  else if m = 4 ∨ m = 6 ∨ m = 9 ∨ m = 11 then 30
  else 31

def digitVal (c : Char) : Option Nat :=
  if c.isDigit then some (c.toNat - 48) else none

def parse2 (a b : Char) : Option Nat := do
  let x ← digitVal a
  let y ← digitVal b
  pure (x * 10 + y)

def parse4 (a b c d : Char) : Option Nat := do
  let x ← parse2 a b
  let y ← parse2 c d
  pure (x * 100 + y)

def parseStitchDatetime (s : String) : Option DateTime :=
  match s.toList with
  | [y1, y2, y3, y4, c1, m1, m2, c2, d1, d2, c3, h1, h2, c4, n1, n2, c5, s1, s2, c6] =>
    if c1 = '-' ∧ c2 = '-' ∧ c3 = 'T' ∧ c4 = ':' ∧ c5 = ':' ∧ c6 = 'Z' then do
      let y ← parse4 y1 y2 y3 y4
      let mo ← parse2 m1 m2
      let d ← parse2 d1 d2
      let h ← parse2 h1 h2
      let mi ← parse2 n1 n2
      let se ← parse2 s1 s2
      if 1 ≤ y ∧ 1 ≤ mo ∧ mo ≤ 12 ∧ 1 ≤ d ∧ d ≤ daysInMonth y mo ∧
          h ≤ 23 ∧ mi ≤ 59 ∧ se ≤ 59 then
        some ⟨y, mo, d, h, mi, se, 0⟩
      else none
    else none
  | _ => none

/-! ### Differences of instants (`datetime - datetime` gives a `timedelta`) -/

/-- Days since 1970-01-01 of a civil date (standard civil-from-days inverse). -/
def daysFromCivil (y m d : Int) : Int :=
  let y2 : Int := if m ≤ 2 then y - 1 else y
  let era : Int := (if 0 ≤ y2 then y2 else y2 - 399) / 400
  let yoe : Int := y2 - era * 400
  let mp : Int := (m + 9) % 12
  let doy : Int := (153 * mp + 2) / 5 + d - 1
  let doe : Int := yoe * 365 + yoe / 4 - yoe / 100 + doy
  era * 146097 + doe - 719468

def DateTime.toTicks (t : DateTime) : Int :=
  (daysFromCivil (t.year : Int) (t.month : Int) (t.day : Int) * 86400
      + (t.hour : Int) * 3600 + (t.minute : Int) * 60 + (t.second : Int)) * 1000000
    + (t.usec : Int)

/-- `a - b` on datetimes: the signed timedelta, in microseconds. -/
def dtSub (a b : DateTime) : Int := a.toTicks - b.toTicks

/-! ### Python dynamic comparison semantics

The source compares values of different runtime types in two places
(`str >= datetime` in the extraction poll, `timedelta > float` in both
timeout checks).  In Python 3 an order comparison between any two of
`str`, `datetime`, `timedelta` and `float` raises `TypeError` unless
the two operands have the same one of these types. -/

inductive PyError where
  | typeError
  | valueError
  | indexError
deriving DecidableEq

inductive PyVal where
  | str (s : String)
  | datetime (t : DateTime)
  | timedelta (microseconds : Int)
  | float (x : Rat)

/-- Python `a >= b` on the dynamic values above. -/
def pyGe : PyVal → PyVal → Except PyError Bool
  | .str a, .str b => .ok (decide (¬ a < b))
  | .datetime a, .datetime b => .ok (!DateTime.ltB a b)
  | .timedelta a, .timedelta b => .ok (decide (b ≤ a))
  | .float a, .float b => .ok (decide (b ≤ a))
  | _, _ => .error .typeError

/-- Python `a > b` on the dynamic values above. -/
def pyGt : PyVal → PyVal → Except PyError Bool
  | .str a, .str b => .ok (decide (b < a))
  | .datetime a, .datetime b => .ok (DateTime.ltB b a)
  | .timedelta a, .timedelta b => .ok (decide (b < a))
  | .float a, .float b => .ok (decide (b < a))
  | _, _ => .error .typeError

/-- Python truthiness `not x` for `x : Optional[int]`:
`None` and `0` are falsy, every other int is truthy. -/
def pyFalsyOptInt : Option Int → Bool
  | none => true
  | some n => n == 0

/-- Python truthiness of an `Optional[float]` (`if x and ...`):
`None` and `0.0` are falsy. -/
def pyTruthyOptRat : Option Rat → Bool
  | none => false
  | some x => x != 0

/-! ### Transport: `StitchResource.make_request`

The HTTP stack is abstracted as a function from the attempt index to
that attempt's outcome: either a `requests.exceptions.RequestException`
(connection error, timeout, or the non-2xx raised by
`raise_for_status`) or a decoded JSON body.  Side effects of the loop
(issuing an attempt, the error log line, `time.sleep`) are recorded in
an event trace, together with the pagination warning of the envelope
unwrapping. -/

inductive Json where
  | obj (fields : List (String × Json))
  | arr (elems : List Json)
  | str (s : String)
  | num (n : Int)
  | bool (b : Bool)
  | null

def jsonLookup (fields : List (String × Json)) (k : String) : Option Json :=
  (fields.find? (fun p => p.1 == k)).map (fun p => p.2)

inductive ReqEvent where
  | attempt
  | logError (url : String)
  | sleep (delay : Rat)
  | warnPagination
deriving DecidableEq

inductive AttemptOutcome where
  | transportError
  | success (body : Json)

inductive MkReqResult where
  | value (j : Json)
  | exhausted (url : String) (maxRetries : Nat)

/-- The success path of `make_request`:
`if type(response_json) is not dict: return response_json`; otherwise
warn when `response_json.get("links", {})` contains `"next"`, and
`return response_json["data"] if "data" in response_json else
response_json`.  (A non-dict `links` value never occurs on this API and
is treated as having no `"next"` marker.) -/
def unwrapEnvelope (j : Json) : Json × List ReqEvent :=
  match j with
  | .obj fields =>
    let warn : List ReqEvent :=
      match jsonLookup fields "links" with
      | some (.obj ls) => if (jsonLookup ls "next").isSome then [.warnPagination] else []
      | _ => []
    match jsonLookup fields "data" with
    | some d => (d, warn)
    | none => (.obj fields, warn)
  | other => (other, [])

/-- The `while retries < self._request_max_retries` loop of
`make_request`.  `remaining` is the loop guard's slack
`maxRetries - retries`, consumed one unit per iteration; `retries` is
the loop counter itself.  A failed attempt logs the error, increments
`retries` and sleeps the retry delay; falling out of the loop raises
the terminal Failure carrying the URL and `self._request_max_retries`. -/
def makeRequestLoop (url : String) (delay : Rat) (attempts : Nat → AttemptOutcome)
    (maxRetries : Nat) : Nat → Nat → MkReqResult × List ReqEvent
  | 0, _ => (.exhausted url maxRetries, [])
  | remaining + 1, retries =>
    match attempts retries with
    | .success body =>
      let (v, warn) := unwrapEnvelope body
      (.value v, .attempt :: warn)
    | .transportError =>
      let (r, evs) := makeRequestLoop url delay attempts maxRetries remaining (retries + 1)
      (r, .attempt :: .logError url :: .sleep delay :: evs)

def make_request (url : String) (delay : Rat) (maxRetries : Nat)
    (attempts : Nat → AttemptOutcome) : MkReqResult × List ReqEvent :=
  makeRequestLoop url delay attempts maxRetries maxRetries 0

/-! ### Data records

The response shapes consumed by the orchestrator, with exactly the
fields the source reads.  Optional fields model JSON `null`. -/

structure ExtractionRecord where
  source_id : String
  job_name : String
  start_time : String
  discovery_exit_status : Option Int
  tap_exit_status : Option Int
  target_exit_status : Option Int
  discovery_description : Option String
  tap_description : Option String
  target_description : Option String
deriving DecidableEq

structure StreamMetadata where
  selected : Bool
deriving DecidableEq

structure RawStream where
  stream_name : String
  metadata : StreamMetadata
deriving DecidableEq

structure ErrorState where
  message : String
deriving DecidableEq

structure RawLoad where
  source_name : String
  stream_name : String
  last_batch_loaded_at : Option String
  error_state : Option ErrorState
deriving DecidableEq

/-- One entry of the `metadata` array of a stream-schema response:
`property["breadcrumb"]` and `property["metadata"]["selected"]`. -/
structure MetadataEntry where
  breadcrumb : List String
  selected : Bool
deriving DecidableEq

structure SchemaResp where
  schema : String
  metadata : List MetadataEntry
deriving DecidableEq

structure StreamSchema where
  stream_id : String
  schema : List String
deriving DecidableEq

/-- `POST sources/{id}/sync` response: `job_name`, or an `error` field. -/
structure StartResponse where
  error : Option String
  job_name : String
deriving DecidableEq

/-- Modelled from the spec: `dagster_stitch/types.py` (the `StitchOutput`
named tuple) is not under `src/`; section 3 of the spec describes the
assembled `ReplicationResult` as the final extraction record, the
mapping from stream name to load record, and the mapping from stream
name to resolved schema, which is also the order of the
`StitchOutput(extraction, loads, stream_schemas)` constructor call. -/
structure StitchOutput where
  extractions : ExtractionRecord
  loads : List (String × RawLoad)
  stream_schemas : List (String × StreamSchema)
deriving DecidableEq

/-- The domain-level `dagster.Failure` values raised by the
orchestrator, keyed by raise site, carrying the fields interpolated
into the message. -/
inductive StitchFailure where
  | jobStartRejected (msg : String)
  | extractionNotFound (dataSourceId : String)
  | extractionTimeout (dataSourceId : String) (timeout : Rat)
  | stageFailed (stage : String) (exitStatus : Option Int) (description : Option String)
  | loadNotFound (dataSourceId : String)
  | streamLoadMissing (stream : String)
  | loadTimeout (dataSourceId : String) (timeout : Rat)
deriving DecidableEq

/-- Outcome of a polling computation: a returned value, a raised
`dagster.Failure`, a raised Python runtime error, or `running` when the
supplied per-iteration responses are exhausted while the loop would
keep polling. -/
inductive PollResult (α : Type) where
  | ok (val : α)
  | failure (f : StitchFailure)
  | pyError (e : PyError)
  | running
deriving DecidableEq

/-- Abort of the per-stream load check: a raised Failure or a raised
Python error. -/
inductive PollAbort where
  | failure (f : StitchFailure)
  | pyError (e : PyError)
deriving DecidableEq

/-! ### Python dicts

Insertion-ordered association lists: inserting an existing key updates
the value in place, a new key is appended. -/

def updateAList {α : Type} (m : List (String × α)) (k : String) (v : α) :
    List (String × α) :=
  if m.any (fun p => p.1 == k) then
    m.map (fun p => if p.1 == k then (k, v) else p)
  else m ++ [(k, v)]

def alistLookup {α : Type} (m : List (String × α)) (k : String) : Option α :=
  (m.find? (fun p => p.1 == k)).map (fun p => p.2)

/-! ### Read accessors -/

/-- `get_extractions(data_source_id)` at the poll site:
`{e["source_id"]: e for e in extractions}.get(data_source_id, {})`,
i.e. the last record of the response carrying that source id (`none`
models the falsy `{}` default). -/
def get_extractions (extractions : List ExtractionRecord) (dataSourceId : String) :
    Option ExtractionRecord :=
  (extractions.filter (fun e => e.source_id == dataSourceId)).getLast?

/-- `list_streams`: `{stream["stream_name"]: stream for stream in streams}`. -/
def list_streams (raws : List RawStream) : List (String × RawStream) :=
  raws.foldl (fun m s => updateAList m s.stream_name s) []

/-- `list_recent_loads(data_source_id)`: the flat response is
accumulated into `all_loads[load["source_name"]][load["stream_name"]]`
and the `data_source_id` bucket is returned (`{}` when absent).  The
bucket receives exactly the loads whose `source_name` matches, in
response order, a later load for the same stream overwriting an
earlier one. -/
def list_recent_loads (loads : List RawLoad) (dataSourceId : String) :
    List (String × RawLoad) :=
  (loads.filter (fun ld => ld.source_name == dataSourceId)).foldl
    (fun m ld => updateAList m ld.stream_name ld) []

/-- `get_stream_schema`'s list comprehension over `schema["metadata"]`:
`property["breadcrumb"][1] for property in schema["metadata"] if
"properties" in property["breadcrumb"] and
property["metadata"]["selected"]`.  The subscript `[1]` raises
IndexError on a breadcrumb shorter than two elements. -/
def resolveSchema : List MetadataEntry → Except PyError (List String)
  | [] => .ok []
  | e :: rest =>
    if e.breadcrumb.contains "properties" && e.selected then
      match e.breadcrumb.get? 1 with
      | none => .error .indexError
      | some name =>
        match resolveSchema rest with
        | .error err => .error err
        | .ok names => .ok (name :: names)
    else resolveSchema rest

def get_stream_schema (resp : SchemaResp) (streamId : String) :
    Except PyError StreamSchema :=
  match resolveSchema resp.metadata with
  | .error err => .error err
  | .ok names => .ok ⟨streamId, names⟩

/-- `start_replication_job`: raise when the response carries an
`error` field, otherwise return the response. -/
def start_replication_job (resp : StartResponse) : Except StitchFailure StartResponse :=
  match resp.error with
  | some e => .error (.jobStartRejected e)
  | none => .ok resp

/-! ### Phase A: the extraction poll loop -/

/-- The loop-exit disjunction, with Python's short-circuit `or`:
`extraction["job_name"] == replication_response["job_name"] or
extraction["start_time"] >= extraction_start`.  The right disjunct
compares the raw `start_time` string with the `datetime.now()` value
`extraction_start`, so evaluating it is a `TypeError`. -/
def extractionExitCond (ext : ExtractionRecord) (startedJob : String)
    (extractionStart : DateTime) : Except PyError Bool :=
  if ext.job_name == startedJob then .ok true
  else pyGe (.str ext.start_time) (.datetime extractionStart)

/-- The `while True` extraction poll of `start_replication_job_and_poll`,
one list entry per iteration: the extraction response of that
iteration's `get_extractions` call paired with the `datetime.now()`
observed by that iteration's timeout check. -/
def extractionLoop (dataSourceId startedJob : String) (extractionStart : DateTime)
    (extractionTimeout : Option Rat) :
    List (List ExtractionRecord × DateTime) → PollResult ExtractionRecord
  | [] => .running
  | (raw, now) :: rest =>
    match get_extractions raw dataSourceId with
    | none => .failure (.extractionNotFound dataSourceId)
    | some ext =>
      match extractionExitCond ext startedJob extractionStart with
      | .error e => .pyError e
      | .ok true => .ok ext
      | .ok false =>
        if pyTruthyOptRat extractionTimeout then
          match pyGt (.timedelta (dtSub now extractionStart))
              (.float (extractionTimeout.getD 0)) with
          | .error e => .pyError e
          | .ok true => .failure (.extractionTimeout dataSourceId (extractionTimeout.getD 0))
          | .ok false =>
            extractionLoop dataSourceId startedJob extractionStart extractionTimeout rest
        else extractionLoop dataSourceId startedJob extractionStart extractionTimeout rest

/-! ### The stage check -/

def stageList (ext : ExtractionRecord) : List (String × Option Int × Option String) :=
  [("discovery", ext.discovery_exit_status, ext.discovery_description),
   ("tap", ext.tap_exit_status, ext.tap_description),
   ("target", ext.target_exit_status, ext.target_description)]

/-- `for failure_mode in ("discovery", "tap", "target")`:
`if not extraction[f"..._exit_status"]: continue` (a falsy status —
`None` or `0` — skips to the next stage), then
`if extraction[f"..._exit_status"] != 0: raise Failure(...)`. -/
def stageCheckLoop : List (String × Option Int × Option String) → Option StitchFailure
  | [] => none
  | (name, status, desc) :: rest =>
    if pyFalsyOptInt status then stageCheckLoop rest
    else if status = some 0 then stageCheckLoop rest
    else some (.stageFailed name status desc)

def stageCheck (ext : ExtractionRecord) : Option StitchFailure :=
  stageCheckLoop (stageList ext)

/-! ### Phase B: the load poll loop -/

/-- The `for stream in streams` body of one load-poll iteration.
Returns the final `loading_complete` flag together with the warned
stream names (in loop order), or the abort: a raised Failure for a
selected stream missing from `loads`, or the `ValueError` of a
malformed `last_batch_loaded_at` under `strptime`. -/
def checkStreams (streams : List (String × RawStream)) (loads : List (String × RawLoad))
    (loadStart : DateTime) : Except PollAbort (Bool × List String) :=
  match streams with
  | [] => .ok (true, [])
  | (_, s) :: rest =>
    if s.metadata.selected then
      match alistLookup loads s.stream_name with
      | none => .error (.failure (.streamLoadMissing s.stream_name))
      | some ld =>
        match ld.error_state with
        | some _ =>
          match checkStreams rest loads loadStart with
          | .error a => .error a
          | .ok (c, w) => .ok (c, s.stream_name :: w)
        | none =>
          match ld.last_batch_loaded_at with
          | none =>
            match checkStreams rest loads loadStart with
            | .error a => .error a
            | .ok (_, w) => .ok (false, w)
          | some ts =>
            match parseStitchDatetime ts with
            | none => .error (.pyError .valueError)
            | some t =>
              if t.ltB loadStart then
                match checkStreams rest loads loadStart with
                | .error a => .error a
                | .ok (_, w) => .ok (false, w)
              else checkStreams rest loads loadStart
    else checkStreams rest loads loadStart

/-- The `while not loading_complete` load poll, one list entry per
iteration: that iteration's `list_recent_loads` raw response paired
with the `datetime.now()` observed by its timeout check. -/
def loadLoop (dataSourceId : String) (streams : List (String × RawStream))
    (loadStart : DateTime) (loadTimeout : Option Rat) :
    List (List RawLoad × DateTime) → PollResult (List (String × RawLoad))
  | [] => .running
  | (raw, now) :: rest =>
    let loads := list_recent_loads raw dataSourceId
    if loads.isEmpty then .failure (.loadNotFound dataSourceId)
    else
      match checkStreams streams loads loadStart with
      | .error (.failure f) => .failure f
      | .error (.pyError e) => .pyError e
      | .ok (complete, _warned) =>
        if complete then .ok loads
        else if pyTruthyOptRat loadTimeout then
          match pyGt (.timedelta (dtSub now loadStart)) (.float (loadTimeout.getD 0)) with
          | .error e => .pyError e
          | .ok true => .failure (.loadTimeout dataSourceId (loadTimeout.getD 0))
          | .ok false => loadLoop dataSourceId streams loadStart loadTimeout rest
        else loadLoop dataSourceId streams loadStart loadTimeout rest

/-- The dict comprehension
`{stream_name: self.get_stream_schema(data_source_id, stream_name) for
stream_name in streams.keys()}` — over every stream of the snapshot,
selected or not. -/
def fetchSchemas (schemaOf : String → SchemaResp) :
    List (String × RawStream) → Except PyError (List (String × StreamSchema))
  | [] => .ok []
  | (key, _) :: rest =>
    match get_stream_schema (schemaOf key) key with
    | .error e => .error e
    | .ok sch =>
      match fetchSchemas schemaOf rest with
      | .error e => .error e
      | .ok m => .ok ((key, sch) :: m)

/-! ### The full blocking call -/

/-- The constructor arguments of `StitchResource` that
`start_replication_job_and_poll` can read. -/
structure StitchResourceCfg where
  request_max_retries : Nat
  default_poll_interval : Rat
  default_extraction_timeout : Option Rat
  default_load_timeout : Option Rat
  request_retry_delay : Rat
deriving DecidableEq

/-- `if poll_interval is None: poll_interval = self._default_poll_interval`. -/
def resolvePollInterval (cfg : StitchResourceCfg) (pollInterval : Option Rat) : Rat :=
  pollInterval.getD cfg.default_poll_interval

/-- `if extraction_timeout is None: extraction_timeout =
self._default_extraction_timeout`. -/
def resolveExtractionTimeout (cfg : StitchResourceCfg) (extractionTimeout : Option Rat) :
    Option Rat :=
  match extractionTimeout with
  | none => cfg.default_extraction_timeout
  | some t => some t

/-- The remote system and clock as observed by one call: the start
response, the two `datetime.now()` readings taken right before the
start request and right before the load loop, the per-iteration poll
responses, the stream list, and the per-stream schema responses. -/
structure Env where
  startResponse : StartResponse
  extractionStartNow : DateTime
  extractionResponses : List (List ExtractionRecord × DateTime)
  streamsResponse : List RawStream
  loadStartNow : DateTime
  loadResponses : List (List RawLoad × DateTime)
  schemaResponse : String → SchemaResp

/-- `StitchResource.start_replication_job_and_poll`.  `poll_interval`
is resolved against its default but only feeds the elided
`time.sleep`; `extraction_timeout` is resolved against its default;
`load_timeout` is used exactly as passed — the source never reads
`self._default_load_timeout`. -/
def start_replication_job_and_poll (cfg : StitchResourceCfg) (env : Env)
    (dataSourceId : String) (pollInterval extractionTimeout loadTimeout : Option Rat) :
    PollResult StitchOutput :=
  let _pollInterval : Rat := resolvePollInterval cfg pollInterval
  let extractionTimeout : Option Rat := resolveExtractionTimeout cfg extractionTimeout
  let extractionStart := env.extractionStartNow
  match start_replication_job env.startResponse with
  | .error f => .failure f
  | .ok resp =>
    match extractionLoop dataSourceId resp.job_name extractionStart extractionTimeout
        env.extractionResponses with
    | .running => .running
    | .failure f => .failure f
    | .pyError e => .pyError e
    | .ok ext =>
      match stageCheck ext with
      | some f => .failure f
      | none =>
        let streams := list_streams env.streamsResponse
        let loadStart := env.loadStartNow
        match loadLoop dataSourceId streams loadStart loadTimeout env.loadResponses with
        | .running => .running
        | .failure f => .failure f
        | .pyError e => .pyError e
        | .ok loads =>
          match fetchSchemas env.schemaResponse streams with
          | .error e => .pyError e
          | .ok streamSchemas => .ok ⟨ext, loads, streamSchemas⟩

/-! ### Claim-side definitions

Definitions below this point follow the wording of the specification's
claims (for refuting or amending them); they are not translations of
the source and are named accordingly. -/

/-- Claim-side stage check, following the spec's words for C2: an
unset exit status means "still in progress — stop checking further
stages"; a set non-zero status fails; a set zero status passes to the
next stage. -/
def stageCheckClaimLoop : List (String × Option Int × Option String) → Option StitchFailure
  | [] => none
  | (name, status, desc) :: rest =>
    match status with
    | none => none
    | some n => if n = 0 then stageCheckClaimLoop rest else some (.stageFailed name status desc)

def stageCheckClaim (ext : ExtractionRecord) : Option StitchFailure :=
  stageCheckClaimLoop (stageList ext)

/-- The stage failure the code produces: the first stage, in the fixed
order, whose exit status is set and non-zero (a truthy status). -/
def firstFailingStage (ext : ExtractionRecord) : Option StitchFailure :=
  ((stageList ext).find? (fun t => !pyFalsyOptInt t.2.1)).map
    (fun t => .stageFailed t.1 t.2.1 t.2.2)

/-- Amended-claim characterization for C3: a stream is settled when it
is unselected, or its load exists and either carries an error state or
a `last_batch_loaded_at` parsing to an instant at or after
`loadStart`. -/
def streamSettled (loads : List (String × RawLoad)) (loadStart : DateTime)
    (s : RawStream) : Bool :=
  !s.metadata.selected ||
    (match alistLookup loads s.stream_name with
     | none => false
     | some ld =>
       ld.error_state.isSome ||
         (match ld.last_batch_loaded_at with
          | none => false
          | some ts =>
            match parseStitchDatetime ts with
            | none => false
            | some t => !t.ltB loadStart))

def allSelectedSettled (streams : List (String × RawStream))
    (loads : List (String × RawLoad)) (loadStart : DateTime) : Bool :=
  streams.all (fun p => streamSettled loads loadStart p.2)

/-- The stream names marked selected in a stream-list snapshot. -/
def selectedNames (streams : List (String × RawStream)) : List String :=
  (streams.filter (fun p => p.2.metadata.selected)).map (fun p => p.1)

/-- Claim-side schema filter for C9, following the spec's words: a
property is included when its breadcrumb BEGINS with `"properties"`
(and it is selected). -/
def resolveSchemaClaim : List MetadataEntry → Except PyError (List String)
  | [] => .ok []
  | e :: rest =>
    if e.breadcrumb.head? == some "properties" && e.selected then
      match e.breadcrumb.get? 1 with
      | none => .error .indexError
      | some name =>
        match resolveSchemaClaim rest with
        | .error err => .error err
        | .ok names => .ok (name :: names)
    else resolveSchemaClaim rest

/-- Hypothesis encoding for the C8 scenario: the selected stream's load
exists and either has `error_state` set or a `last_batch_loaded_at`
strictly after `loadStart`. -/
def settledStrictB (loads : List (String × RawLoad)) (loadStart : DateTime)
    (s : RawStream) : Bool :=
  match alistLookup loads s.stream_name with
  | none => false
  | some ld =>
    ld.error_state.isSome ||
      (match ld.last_batch_loaded_at with
       | none => false
       | some ts =>
         match parseStitchDatetime ts with
         | none => false
         | some t => loadStart.ltB t)

/-- The stream names the load-check body warns about, in loop order:
the selected streams whose load has `error_state` set. -/
def warnsOf (streams : List (String × RawStream)) (loads : List (String × RawLoad)) :
    List String :=
  (streams.filter (fun p => p.2.metadata.selected &&
      (match alistLookup loads p.2.stream_name with
       | some ld => ld.error_state.isSome
       | none => false))).map (fun p => p.2.stream_name)

/-- Does a poll outcome consist of the load-timeout Failure? -/
def isLoadTimeout {α : Type} : PollResult α → Bool
  | .failure (.loadTimeout _ _) => true
  | _ => false

def isLoadTimeoutFailure : StitchFailure → Bool
  | .loadTimeout _ _ => true
  | _ => false

/-- All transport attempts raise `requests.exceptions.RequestException`. -/
def allTransportErrors : Nat → AttemptOutcome := fun _ => .transportError

def isAttempt : ReqEvent → Bool
  | .attempt => true
  | _ => false

def countAttempts (evs : List ReqEvent) : Nat :=
  (evs.filter isAttempt).length

/-! ### Concrete inputs used by counterexamples and witnesses -/

/-- Extraction record of a different, older job: `job_name` differs
from the started `"baz"` and its `start_time` parses to 04:00:00,
after the call's `extraction_start` of 03:00:00. -/
def extC1 : ExtractionRecord :=
  ⟨"bing", "other", "2023-02-19T04:00:00Z", some 0, some 0, some 0, none, none, none⟩

def t0C1 : DateTime := ⟨2023, 2, 19, 3, 0, 0, 0⟩

def tLaterC1 : DateTime := ⟨2023, 2, 19, 4, 0, 0, 0⟩

def nowC1 : DateTime := ⟨2023, 2, 19, 4, 1, 0, 0⟩

/-- Stage exit statuses (discovery = unset, tap = 1, target = 0). -/
def extC2skip : ExtractionRecord :=
  ⟨"bing", "baz", "2023-02-19T03:11:48Z", none, some 1, some 0, none, some "boom", none⟩

/-- Stage exit statuses (discovery = 0, tap = 1, target = unset). -/
def extC2tap : ExtractionRecord :=
  ⟨"bing", "baz", "2023-02-19T03:11:48Z", some 0, some 1, none, none, some "tap crashed", none⟩

/-- A load whose `last_batch_loaded_at` is exactly the load-phase
start instant `t0C3` (second precision, zero microseconds). -/
def loadC3 : RawLoad := ⟨"bing", "qux", some "2023-02-19T03:11:48Z", none⟩

def t0C3 : DateTime := ⟨2023, 2, 19, 3, 11, 48, 0⟩

def streamsC3 : List (String × RawStream) := [("qux", ⟨"qux", ⟨true⟩⟩)]

def loadsC3 : List (String × RawLoad) := [("qux", loadC3)]

/-- A nominal all-stages-zero extraction record for the started job. -/
def extOk : ExtractionRecord :=
  ⟨"bing", "baz", "2023-02-19T03:11:48Z", some 0, some 0, some 0, none, none, none⟩

/-- The section-8 fixture metadata: a root entry with an empty
breadcrumb plus two selected properties. -/
def fixtureMetadata : List MetadataEntry :=
  [⟨[], true⟩, ⟨["properties", "author"], true⟩, ⟨["properties", "description"], true⟩]

/-- The section-8 schema response (the raw `schema` string is opaque
to the orchestrator and abbreviated here). -/
def fixtureSchemaResp : SchemaResp := ⟨"json-schema-string", fixtureMetadata⟩

/-- A selected stream whose load never reports a batch. -/
def loadNeverC4 : RawLoad := ⟨"bing", "qux", none, none⟩

def cfg0 : StitchResourceCfg := ⟨3, 10, some 600, some 600, 1⟩

/-- Environment for the C4 run: the extraction matches immediately
with all exit statuses zero, and the single selected stream `"qux"`
never reaches a fresh `last_batch_loaded_at`. -/
def envC4 : Env where
  startResponse := ⟨none, "baz"⟩
  extractionStartNow := ⟨2023, 2, 19, 3, 11, 0, 0⟩
  extractionResponses := [([extOk], ⟨2023, 2, 19, 3, 11, 50, 0⟩)]
  streamsResponse := [⟨"qux", ⟨true⟩⟩]
  loadStartNow := ⟨2023, 2, 19, 3, 12, 0, 0⟩
  loadResponses := [([loadNeverC4], ⟨2023, 2, 19, 3, 12, 10, 0⟩)]
  schemaResponse := fun _ => fixtureSchemaResp

def streamAlpha : RawStream := ⟨"alpha", ⟨true⟩⟩

def streamBeta : RawStream := ⟨"beta", ⟨false⟩⟩

def loadAlpha : RawLoad := ⟨"bing", "alpha", some "2023-02-20T00:00:00Z", none⟩

def loadBeta : RawLoad := ⟨"bing", "beta", some "2023-02-20T00:00:00Z", none⟩

/-- Environment for the C6 run: two streams, `"alpha"` selected and
`"beta"` not selected, both with recent loads; everything succeeds. -/
def envC6 : Env where
  startResponse := ⟨none, "baz"⟩
  extractionStartNow := ⟨2023, 2, 19, 3, 11, 0, 0⟩
  extractionResponses := [([extOk], ⟨2023, 2, 19, 3, 11, 50, 0⟩)]
  streamsResponse := [streamAlpha, streamBeta]
  loadStartNow := ⟨2023, 2, 19, 3, 12, 0, 0⟩
  loadResponses := [([loadAlpha, loadBeta], ⟨2023, 2, 19, 3, 12, 10, 0⟩)]
  schemaResponse := fun _ => fixtureSchemaResp

/-- The successful C6 output. -/
def outC6 : StitchOutput :=
  ⟨extOk,
   [("alpha", loadAlpha), ("beta", loadBeta)],
   [("alpha", ⟨"alpha", ["author", "description"]⟩),
    ("beta", ⟨"beta", ["author", "description"]⟩)]⟩

/-- Extraction-start instant later than `extOk`'s `start_time`. -/
def tW7 : DateTime := ⟨2023, 2, 19, 5, 0, 0, 0⟩

def nowW7 : DateTime := ⟨2023, 2, 19, 5, 1, 0, 0⟩

def streamsW8 : List (String × RawStream) :=
  [("events", ⟨"events", ⟨true⟩⟩), ("users", ⟨"users", ⟨true⟩⟩)]

/-- Loads for the C8 witness: `"events"` has an error state, `"users"`
is freshly loaded strictly after the load start. -/
def rawW8 : List RawLoad :=
  [⟨"bing", "events", none, some ⟨"boom"⟩⟩,
   ⟨"bing", "users", some "2023-03-01T00:00:00Z", none⟩]

def t0W8 : DateTime := ⟨2023, 2, 19, 3, 12, 0, 0⟩

def nowW8 : DateTime := ⟨2023, 2, 19, 3, 12, 10, 0⟩

/-- A selected metadata entry whose breadcrumb contains
`"properties"` but does not begin with it. -/
def entryBadC9 : MetadataEntry := ⟨["name", "properties"], true⟩

def schemaRespBadC9 : SchemaResp := ⟨"json-schema-string", [entryBadC9]⟩

/-! ### Helper lemmas -/

theorem lexLtB_asymm (xs : List Nat) : ∀ ys, lexLtB xs ys = true → lexLtB ys xs = false := by
  induction xs with
  | nil => intro ys h; cases ys <;> simp [lexLtB] at h
  | cons a as ih =>
    intro ys h
    cases ys with
    | nil => simp [lexLtB] at h
    | cons b bs =>
      by_cases hab : a = b
      · subst hab
        simp only [lexLtB, if_pos rfl] at h ⊢
        exact ih bs h
      · simp only [lexLtB, if_neg hab, decide_eq_true_eq] at h
        have hba : ¬ b = a := fun hh => hab hh.symm
        simp only [lexLtB, if_neg hba, decide_eq_false_iff_not]
        omega

theorem DateTime.ltB_asymm (a b : DateTime) (h : a.ltB b = true) : b.ltB a = false :=
  lexLtB_asymm a.fields b.fields h

theorem stageCheckLoop_eq_find (l : List (String × Option Int × Option String)) :
    stageCheckLoop l
      = (l.find? (fun t => !pyFalsyOptInt t.2.1)).map (fun t => .stageFailed t.1 t.2.1 t.2.2) := by
  induction l with
  | nil => rfl
  | cons hd tl ih =>
    obtain ⟨name, status, desc⟩ := hd
    by_cases hf : pyFalsyOptInt status = true
    · simp [stageCheckLoop, List.find?, hf, ih]
    · have hs0 : ¬ status = some 0 := by
        cases status with
        | none => simp [pyFalsyOptInt] at hf
        | some n =>
          simp only [pyFalsyOptInt, beq_iff_eq] at hf
          intro hc
          exact hf (by cases hc; rfl)
      simp [stageCheckLoop, List.find?, hf, hs0]

theorem isLoadTimeout_failure_eq {α : Type} (f : StitchFailure) :
    isLoadTimeout (PollResult.failure f : PollResult α) = isLoadTimeoutFailure f := by
  cases f <;> rfl

theorem extractionLoop_failure_not_loadTimeout (ds j : String) (t0 : DateTime)
    (eto : Option Rat) :
    ∀ (resp : List (List ExtractionRecord × DateTime)) (f : StitchFailure),
    extractionLoop ds j t0 eto resp = .failure f → isLoadTimeoutFailure f = false := by
  intro resp
  induction resp with
  | nil => intro f h; simp [extractionLoop] at h
  | cons hd rest ih =>
    obtain ⟨raw, now⟩ := hd
    intro f h
    simp only [extractionLoop] at h
    cases hg : get_extractions raw ds with
    | none =>
      simp only [hg] at h
      cases h
      rfl
    | some ext =>
      cases hc : extractionExitCond ext j t0 with
      | error e => simp only [hg, hc] at h; cases h
      | ok bv =>
        cases bv with
        | true => simp only [hg, hc] at h; cases h
        | false =>
          simp only [hg, hc] at h
          by_cases ht : pyTruthyOptRat eto = true
          · rw [if_pos ht] at h
            cases hgt : pyGt (.timedelta (dtSub now t0)) (.float (eto.getD 0)) with
            | error e => rw [hgt] at h; cases h
            | ok gv =>
              rw [hgt] at h
              cases gv with
              | true => cases h; rfl
              | false => exact ih f h
          · rw [if_neg ht] at h
            exact ih f h

theorem checkStreams_failure_not_loadTimeout :
    ∀ (streams : List (String × RawStream)) (loads : List (String × RawLoad))
      (t : DateTime) (f : StitchFailure),
    checkStreams streams loads t = .error (.failure f) → isLoadTimeoutFailure f = false := by
  intro streams
  induction streams with
  | nil => intro loads t f h; simp [checkStreams] at h
  | cons hd rest ih =>
    obtain ⟨key, s⟩ := hd
    intro loads t f h
    simp only [checkStreams] at h
    by_cases hsel : s.metadata.selected = true
    · rw [if_pos hsel] at h
      cases hl : alistLookup loads s.stream_name with
      | none => simp only [hl] at h; cases h; rfl
      | some ld =>
        cases he : ld.error_state with
        | some es =>
          cases hrec : checkStreams rest loads t with
          | error a =>
            simp only [hl, he, hrec] at h
            cases h
            exact ih loads t f hrec
          | ok p =>
            obtain ⟨c, w⟩ := p
            simp only [hl, he, hrec] at h
            cases h
        | none =>
          cases hb : ld.last_batch_loaded_at with
          | none =>
            cases hrec : checkStreams rest loads t with
            | error a =>
              simp only [hl, he, hb, hrec] at h
              cases h
              exact ih loads t f hrec
            | ok p =>
              obtain ⟨c, w⟩ := p
              simp only [hl, he, hb, hrec] at h
              cases h
          | some ts =>
            cases hp : parseStitchDatetime ts with
            | none => simp only [hl, he, hb, hp] at h; cases h
            | some u =>
              simp only [hl, he, hb, hp] at h
              by_cases hlt : u.ltB t = true
              · rw [if_pos hlt] at h
                cases hrec : checkStreams rest loads t with
                | error a =>
                  rw [hrec] at h
                  cases h
                  exact ih loads t f hrec
                | ok p => obtain ⟨c, w⟩ := p; rw [hrec] at h; cases h
              · rw [if_neg hlt] at h
                exact ih loads t f h
    · rw [if_neg hsel] at h
      exact ih loads t f h

theorem loadLoop_none_not_loadTimeout (ds : String) (streams : List (String × RawStream))
    (t : DateTime) :
    ∀ (resp : List (List RawLoad × DateTime)),
    isLoadTimeout (loadLoop ds streams t none resp) = false := by
  intro resp
  induction resp with
  | nil => rfl
  | cons hd rest ih =>
    obtain ⟨raw, now⟩ := hd
    simp only [loadLoop]
    by_cases hne : (list_recent_loads raw ds).isEmpty = true
    · rw [if_pos hne]; rfl
    · rw [if_neg hne]
      cases hc : checkStreams streams (list_recent_loads raw ds) t with
      | error a =>
        cases a with
        | failure f =>
          rw [isLoadTimeout_failure_eq]
          exact checkStreams_failure_not_loadTimeout streams (list_recent_loads raw ds) t f hc
        | pyError e => rfl
      | ok p =>
        obtain ⟨complete, warned⟩ := p
        cases complete with
        | true => rfl
        | false => simpa [pyTruthyOptRat] using ih

theorem fetchSchemas_keys (f : String → SchemaResp) :
    ∀ (l : List (String × RawStream)) (m : List (String × StreamSchema)),
    fetchSchemas f l = .ok m → m.map Prod.fst = l.map Prod.fst := by
  intro l
  induction l with
  | nil => intro m h; cases h; rfl
  | cons hd rest ih =>
    obtain ⟨key, s⟩ := hd
    intro m h
    simp only [fetchSchemas] at h
    cases hg : get_stream_schema (f key) key with
    | error e => rw [hg] at h; cases h
    | ok sch =>
      rw [hg] at h
      cases hr : fetchSchemas f rest with
      | error e => rw [hr] at h; cases h
      | ok m2 =>
        rw [hr] at h
        cases h
        simpa using ih m2 hr

theorem loadLoop_ok_from_response (ds : String) (streams : List (String × RawStream))
    (t : DateTime) (lto : Option Rat) :
    ∀ (resp : List (List RawLoad × DateTime)) (loads : List (String × RawLoad)),
    loadLoop ds streams t lto resp = .ok loads →
    ∃ p ∈ resp, loads = list_recent_loads p.1 ds := by
  intro resp
  induction resp with
  | nil => intro loads h; simp [loadLoop] at h
  | cons hd rest ih =>
    obtain ⟨raw, now⟩ := hd
    intro loads h
    simp only [loadLoop] at h
    by_cases hne : (list_recent_loads raw ds).isEmpty = true
    · rw [if_pos hne] at h; cases h
    · rw [if_neg hne] at h
      cases hc : checkStreams streams (list_recent_loads raw ds) t with
      | error a => rw [hc] at h; cases a <;> simp at h
      | ok p =>
        rw [hc] at h
        obtain ⟨complete, warned⟩ := p
        cases complete with
        | true =>
          simp only [if_pos] at h
          cases h
          exact ⟨(raw, now), by simp⟩
        | false =>
          simp only at h
          by_cases htr : pyTruthyOptRat lto = true
          · rw [if_pos htr] at h
            cases hgt : pyGt (.timedelta (dtSub now t)) (.float (lto.getD 0)) with
            | error e => rw [hgt] at h; cases h
            | ok gv =>
              rw [hgt] at h
              cases gv with
              | true => cases h
              | false =>
                obtain ⟨p, hp, heq⟩ := ih loads h
                exact ⟨p, by simp [hp], heq⟩
          · rw [if_neg htr] at h
            obtain ⟨p, hp, heq⟩ := ih loads h
            exact ⟨p, by simp [hp], heq⟩

theorem checkStreams_all_settled_strict :
    ∀ (streams : List (String × RawStream)) (loads : List (String × RawLoad)) (t : DateTime),
    streams.all (fun p => !p.2.metadata.selected || settledStrictB loads t p.2) = true →
    checkStreams streams loads t = .ok (true, warnsOf streams loads) := by
  intro streams
  induction streams with
  | nil => intro loads t _; rfl
  | cons hd rest ih =>
    obtain ⟨key, s⟩ := hd
    intro loads t hall
    rw [List.all_cons] at hall
    have h1 := ((Bool.and_eq_true _ _).mp hall).1
    have hrest := ih loads t ((Bool.and_eq_true _ _).mp hall).2
    simp only [checkStreams]
    by_cases hsel : s.metadata.selected = true
    · rw [if_pos hsel]
      have hset : settledStrictB loads t s = true := by
        rw [hsel] at h1
        simpa using h1
      cases hl : alistLookup loads s.stream_name with
      | none => simp [settledStrictB, hl] at hset
      | some ld =>
        cases he : ld.error_state with
        | some es =>
          simp only [hl, he, hrest]
          simp [warnsOf, List.filter_cons, hsel, hl, he]
        | none =>
          cases hb : ld.last_batch_loaded_at with
          | none => simp [settledStrictB, hl, he, hb] at hset
          | some ts =>
            cases hp : parseStitchDatetime ts with
            | none => simp [settledStrictB, hl, he, hb, hp] at hset
            | some u =>
              have hlt : t.ltB u = true := by
                simpa [settledStrictB, hl, he, hb, hp] using hset
              have hnlt : u.ltB t = false := DateTime.ltB_asymm t u hlt
              simp only [hl, he, hb, hp, hnlt]
              rw [if_neg (by simp [hnlt])]
              rw [hrest]
              simp [warnsOf, List.filter_cons, hsel, hl, he]
    · rw [if_neg hsel]
      rw [hrest]
      have hsf : s.metadata.selected = false := by
        cases hx : s.metadata.selected with
        | true => exact absurd hx hsel
        | false => rfl
      simp [warnsOf, List.filter_cons, hsf]

theorem stageCheck_not_loadTimeout (ext : ExtractionRecord) (f : StitchFailure)
    (h : stageCheck ext = some f) : isLoadTimeoutFailure f = false := by
  rw [stageCheck, stageCheckLoop_eq_find] at h
  cases hfind : (stageList ext).find? (fun t => !pyFalsyOptInt t.2.1) with
  | none => rw [hfind] at h; cases h
  | some tr =>
    rw [hfind] at h
    cases h
    rfl

theorem makeRequestLoop_allFail (url : String) (delay : Rat) (maxR : Nat) :
    ∀ (n retries : Nat),
    makeRequestLoop url delay allTransportErrors maxR n retries
      = (.exhausted url maxR,
         (List.replicate n [ReqEvent.attempt, .logError url, .sleep delay]).flatten) := by
  intro n
  induction n with
  | zero => intro retries; rfl
  | succ k ih =>
    intro retries
    simp only [makeRequestLoop, allTransportErrors, ih (retries + 1)]
    simp [List.replicate_succ]

theorem countAttempts_join_replicate (url : String) (delay : Rat) :
    ∀ r : Nat,
    countAttempts ((List.replicate r [ReqEvent.attempt, .logError url, .sleep delay]).flatten) = r := by
  intro r
  induction r with
  | zero => rfl
  | succ k ih =>
    simp only [List.replicate_succ, List.flatten_cons, countAttempts, List.filter_append,
      List.length_append] at ih ⊢
    simp [List.filter, isAttempt] at ih ⊢
    omega

/-! ### The claims -/

/-- C1: the spec says that when the polled record's `job_name` differs
but its `start_time` (parsed as an instant) is at or after
`extraction_start`, the extraction loop exits to the stage check.  The
code instead compares the raw `start_time` string against the
`datetime` value `extraction_start`, which raises `TypeError` in
Python 3: at a record whose `job_name` differs and whose `start_time`
(04:00:00) is after `extraction_start` (03:00:00), the call crashes
instead of exiting the loop. -/
theorem claim_C1_str_datetime_compare_crashes :
    parseStitchDatetime extC1.start_time = some tLaterC1
    ∧ tLaterC1.ltB t0C1 = false
    ∧ extC1.job_name ≠ "baz"
    ∧ extractionLoop "bing" "baz" t0C1 none [([extC1], nowC1)] = .pyError .typeError := by
  refine ⟨by decide, by decide, by decide, by decide⟩

/-- C2 counterexample: at stage exit statuses
(discovery = unset, tap = 1, target = 0) the claim's reading (an unset
status stops the stage check, examining no later stage, hence no stage
failure) disagrees with the code, which `continue`s past the unset
discovery status and fails naming `tap`. -/
theorem claim_C2_counterexample :
    stageCheck extC2skip = some (.stageFailed "tap" (some 1) (some "boom"))
    ∧ stageCheckClaim extC2skip = none := by
  refine ⟨by decide, by decide⟩

/-- C2 (amended): the stages are examined in the fixed order discovery,
tap, target; a stage whose exit status is falsy (unset or zero) is
skipped and checking continues with the next stage; the first stage
with a set non-zero exit status fails the call, naming that stage, its
exit status and its description, without examining later stages.  In
particular, for (discovery = 0, tap = 1, target = unset) the call fails
naming tap. -/
theorem claim_C2_stage_check :
    (∀ ext : ExtractionRecord, stageCheck ext = firstFailingStage ext)
    ∧ stageCheck extC2tap = some (.stageFailed "tap" (some 1) (some "tap crashed")) := by
  refine ⟨fun ext => stageCheckLoop_eq_find (stageList ext), by decide⟩

/-- C3 counterexample: a selected stream, with no error state, whose
`last_batch_loaded_at` parses to exactly the load-phase start instant
`t0C3` — not strictly after it — which the claim says is still
incomplete; the code's `<` comparison counts it as fresh and reports
the phase complete. -/
theorem claim_C3_counterexample :
    parseStitchDatetime "2023-02-19T03:11:48Z" = some t0C3
    ∧ t0C3.ltB t0C3 = false
    ∧ checkStreams streamsC3 loadsC3 t0C3 = .ok (true, []) := by
  refine ⟨by decide, by decide, by rfl⟩

/-- C3 (amended): a selected stream whose `error_state` is unset counts
as incomplete exactly when its `last_batch_loaded_at` is absent or
strictly BEFORE the recorded load-phase start (a load timestamped
exactly at the start instant already counts as fresh), and the
`loading_complete` flag of a poll iteration is true exactly when every
selected stream is settled (error state set, or load present with a
parsed timestamp at or after the start). -/
theorem claim_C3_load_freshness :
    ∀ (streams : List (String × RawStream)) (loads : List (String × RawLoad))
      (t : DateTime) (b : Bool) (w : List String),
    checkStreams streams loads t = .ok (b, w) → b = allSelectedSettled streams loads t := by
  intro streams
  induction streams with
  | nil =>
    intro loads t b w h
    simp only [checkStreams] at h
    cases h
    rfl
  | cons hd rest ih =>
    obtain ⟨key, s⟩ := hd
    intro loads t b w h
    simp only [checkStreams] at h
    have hcons : allSelectedSettled ((key, s) :: rest) loads t
        = (streamSettled loads t s && allSelectedSettled rest loads t) := by
      simp [allSelectedSettled, List.all_cons]
    by_cases hsel : s.metadata.selected = true
    · rw [if_pos hsel] at h
      cases hl : alistLookup loads s.stream_name with
      | none => simp only [hl] at h; cases h
      | some ld =>
        cases he : ld.error_state with
        | some es =>
          cases hrec : checkStreams rest loads t with
          | error a => simp only [hl, he, hrec] at h; cases h
          | ok p =>
            obtain ⟨c, w2⟩ := p
            simp only [hl, he, hrec] at h
            cases h
            rw [hcons]
            have hs : streamSettled loads t s = true := by
              simp [streamSettled, hsel, hl, he]
            rw [hs, Bool.true_and]
            exact ih loads t _ _ hrec
        | none =>
          cases hb : ld.last_batch_loaded_at with
          | none =>
            cases hrec : checkStreams rest loads t with
            | error a => simp only [hl, he, hb, hrec] at h; cases h
            | ok p =>
              obtain ⟨c, w2⟩ := p
              simp only [hl, he, hb, hrec] at h
              cases h
              rw [hcons]
              have hs : streamSettled loads t s = false := by
                simp [streamSettled, hsel, hl, he, hb]
              rw [hs, Bool.false_and]
          | some ts =>
            cases hp : parseStitchDatetime ts with
            | none => simp only [hl, he, hb, hp] at h; cases h
            | some u =>
              by_cases hlt : u.ltB t = true
              · cases hrec : checkStreams rest loads t with
                | error a =>
                  simp only [hl, he, hb, hp] at h
                  rw [if_pos hlt, hrec] at h
                  cases h
                | ok p =>
                  obtain ⟨c, w2⟩ := p
                  simp only [hl, he, hb, hp] at h
                  rw [if_pos hlt, hrec] at h
                  cases h
                  rw [hcons]
                  have hs : streamSettled loads t s = false := by
                    simp [streamSettled, hsel, hl, he, hb, hp, hlt]
                  rw [hs, Bool.false_and]
              · simp only [hl, he, hb, hp] at h
                rw [if_neg hlt] at h
                rw [hcons]
                have hs : streamSettled loads t s = true := by
                  simp [streamSettled, hsel, hl, he, hb, hp]
                  exact Bool.of_not_eq_true hlt
                rw [hs, Bool.true_and]
                exact ih loads t b w h
    · rw [if_neg hsel] at h
      rw [hcons]
      have hs : streamSettled loads t s = true := by
        simp [streamSettled, Bool.of_not_eq_true hsel]
      rw [hs, Bool.true_and]
      exact ih loads t b w h

/-- Witness for C3 (amended) at the boundary input of the
counterexample. -/
theorem claim_C3_witness : true = allSelectedSettled streamsC3 loadsC3 t0C3 :=
  claim_C3_load_freshness streamsC3 loadsC3 t0C3 true [] (by rfl)

/-- C4: the spec says that with `load_timeout = 5` and no stream ever
fresh, the call fails with a load-timeout Failure after about five
seconds.  The code's timeout guard compares the `timedelta`
`datetime.now() - load_start` against the float `load_timeout`, a
`TypeError` in Python 3, so the call crashes on the first incomplete
poll iteration instead. -/
theorem claim_C4_timedelta_float_compare_crashes :
    start_replication_job_and_poll cfg0 envC4 "bing" none none (some 5)
      = .pyError .typeError := by
  decide

/-- C5: with every attempt raising a transport error, `make_request`
issues exactly `r` attempts, sleeping the configured retry delay after
each failed attempt (hence between any two consecutive attempts), and
then raises the terminal Failure carrying the request URL and the
configured retry count `r`. -/
theorem claim_C5_transport_retries :
    ∀ (r : Nat) (url : String) (delay : Rat),
    make_request url delay r allTransportErrors
      = (.exhausted url r,
         (List.replicate r [ReqEvent.attempt, .logError url, .sleep delay]).flatten)
    ∧ countAttempts (make_request url delay r allTransportErrors).2 = r := by
  intro r url delay
  have hm := makeRequestLoop_allFail url delay r r 0
  constructor
  · exact hm
  · simp only [make_request]
    rw [hm]
    exact countAttempts_join_replicate url delay r

/-- C6 counterexample: a successful run over a stream list containing
the unselected stream `"beta"` returns `"beta"` in both the load
mapping and the schema mapping, so neither key set is a subset of the
selected stream names (here exactly `["alpha"]`). -/
theorem claim_C6_counterexample :
    start_replication_job_and_poll cfg0 envC6 "bing" (some 1) none none = .ok outC6
    ∧ outC6.stream_schemas.map Prod.fst = ["alpha", "beta"]
    ∧ outC6.loads.map Prod.fst = ["alpha", "beta"]
    ∧ selectedNames (list_streams envC6.streamsResponse) = ["alpha"] := by
  refine ⟨by decide, by decide, by decide, by decide⟩

/-- C6 (amended): for every successful call, the schema mapping's keys
are exactly the stream names of the stream-list snapshot — all
streams, selected or not, in snapshot order — and the load mapping is
the recent-loads response of some poll iteration for the data source,
not filtered by selection. -/
theorem claim_C6_result_keys :
    ∀ (cfg : StitchResourceCfg) (env : Env) (ds : String)
      (pollI extT loadT : Option Rat) (out : StitchOutput),
    start_replication_job_and_poll cfg env ds pollI extT loadT = .ok out →
    out.stream_schemas.map Prod.fst = (list_streams env.streamsResponse).map Prod.fst
    ∧ ∃ p ∈ env.loadResponses, out.loads = list_recent_loads p.1 ds := by
  intro cfg env ds pollI extT loadT out h
  simp only [start_replication_job_and_poll] at h
  cases hse : env.startResponse.error with
  | some e => simp only [start_replication_job, hse] at h; cases h
  | none =>
    simp only [start_replication_job, hse] at h
    cases hel : extractionLoop ds env.startResponse.job_name env.extractionStartNow
        (resolveExtractionTimeout cfg extT) env.extractionResponses with
    | running => rw [hel] at h; cases h
    | failure f => rw [hel] at h; cases h
    | pyError e => rw [hel] at h; cases h
    | ok ext =>
      rw [hel] at h
      cases hst : stageCheck ext with
      | some f => simp only [hst] at h; cases h
      | none =>
        simp only [hst] at h
        cases hll : loadLoop ds (list_streams env.streamsResponse) env.loadStartNow loadT
            env.loadResponses with
        | running => rw [hll] at h; cases h
        | failure f => rw [hll] at h; cases h
        | pyError e => rw [hll] at h; cases h
        | ok loads =>
          rw [hll] at h
          cases hfs : fetchSchemas env.schemaResponse (list_streams env.streamsResponse) with
          | error e => simp only [hfs] at h; cases h
          | ok schemas =>
            simp only [hfs] at h
            cases h
            constructor
            · exact fetchSchemas_keys env.schemaResponse (list_streams env.streamsResponse)
                schemas hfs
            · exact loadLoop_ok_from_response ds (list_streams env.streamsResponse)
                env.loadStartNow loadT env.loadResponses loads hll

/-- Witness for C6 (amended), at the environment of the
counterexample run. -/
theorem claim_C6_witness :
    outC6.stream_schemas.map Prod.fst = (list_streams envC6.streamsResponse).map Prod.fst
    ∧ ∃ p ∈ envC6.loadResponses, outC6.loads = list_recent_loads p.1 "bing" :=
  claim_C6_result_keys cfg0 envC6 "bing" (some 1) none none outC6 (by decide)

/-- C7: whenever the polled extraction record's `job_name` equals the
started job's name, the extraction loop exits with that record in the
same iteration — the `start_time` disjunct is short-circuited and never
evaluated, whatever the record's `start_time` (in particular one
earlier than the call's `extraction_start`). -/
theorem claim_C7_job_name_match_exits :
    ∀ (ds j : String) (t0 : DateTime) (eto : Option Rat)
      (raw : List ExtractionRecord) (now : DateTime)
      (rest : List (List ExtractionRecord × DateTime)) (ext : ExtractionRecord),
    get_extractions raw ds = some ext → ext.job_name = j →
    extractionLoop ds j t0 eto ((raw, now) :: rest) = .ok ext := by
  intro ds j t0 eto raw now rest ext hget hname
  simp [extractionLoop, hget, extractionExitCond, hname]

/-- Witness for C7: the record's `start_time` (03:11:48) is strictly
before the extraction start `tW7` (05:00:00), yet the loop exits at
once because the job names match. -/
theorem claim_C7_witness :
    extractionLoop "bing" "baz" tW7 none [([extOk], nowW7)] = .ok extOk :=
  claim_C7_job_name_match_exits "bing" "baz" tW7 none [extOk] nowW7 [] extOk (by decide) rfl

/-- C8: in a poll iteration whose recent-loads response is non-empty
and in which every selected stream's load either carries an
`error_state` or a `last_batch_loaded_at` strictly after `loadStart`,
the per-stream check completes with `loading_complete = true` and warns
exactly about the selected streams whose `error_state` is set, and the
load loop returns those loads — no Failure is raised, so a per-stream
load error never aborts the call. -/
theorem claim_C8_error_state_warns :
    ∀ (ds : String) (streams : List (String × RawStream)) (loadStart : DateTime)
      (lto : Option Rat) (raw : List RawLoad) (now : DateTime)
      (rest : List (List RawLoad × DateTime)),
    (list_recent_loads raw ds).isEmpty = false →
    streams.all (fun p => !p.2.metadata.selected
        || settledStrictB (list_recent_loads raw ds) loadStart p.2) = true →
    checkStreams streams (list_recent_loads raw ds) loadStart
        = .ok (true, warnsOf streams (list_recent_loads raw ds))
    ∧ loadLoop ds streams loadStart lto ((raw, now) :: rest)
        = .ok (list_recent_loads raw ds) := by
  intro ds streams loadStart lto raw now rest hne hall
  have hcs := checkStreams_all_settled_strict streams (list_recent_loads raw ds) loadStart hall
  refine ⟨hcs, ?_⟩
  simp only [loadLoop]
  rw [if_neg (by simp [hne])]
  rw [hcs]
  simp

/-- Witness for C8: stream `"events"` has an error state, stream
`"users"` is loaded strictly after the load start; the iteration
completes with a warning for `"events"` only. -/
theorem claim_C8_witness :
    checkStreams streamsW8 (list_recent_loads rawW8 "bing") t0W8
        = .ok (true, warnsOf streamsW8 (list_recent_loads rawW8 "bing"))
    ∧ loadLoop "bing" streamsW8 t0W8 none [(rawW8, nowW8)]
        = .ok (list_recent_loads rawW8 "bing") :=
  claim_C8_error_state_warns "bing" streamsW8 t0W8 none rawW8 nowW8 [] (by decide) (by decide)

/-- C9 counterexample: a selected entry whose breadcrumb is
`["name", "properties"]` — containing but not beginning with
`"properties"` — is included by the code (as `breadcrumb[1]`, here the
string `"properties"`), while the claim's begins-with reading excludes
it. -/
theorem claim_C9_counterexample :
    get_stream_schema schemaRespBadC9 "s" = .ok ⟨"s", ["properties"]⟩
    ∧ resolveSchemaClaim [entryBadC9] = .ok [] := by
  refine ⟨by rfl, by rfl⟩

/-- C9 (amended): a property entry contributes `breadcrumb[1]` to the
resolved schema exactly when its breadcrumb CONTAINS `"properties"`
(anywhere, not necessarily as its first element) and its metadata marks
it selected, preserving the order of the metadata array; the section-8
fixture still resolves stream `"qux"` to exactly
`["author", "description"]`. -/
theorem claim_C9_schema_filter :
    (∀ es : List MetadataEntry,
        (∀ e ∈ es, (e.breadcrumb.contains "properties" && e.selected) = true →
          2 ≤ e.breadcrumb.length) →
        resolveSchema es
          = .ok ((es.filter (fun e => e.breadcrumb.contains "properties" && e.selected)).map
              (fun e => (e.breadcrumb.get? 1).getD "")))
    ∧ get_stream_schema fixtureSchemaResp "qux" = .ok ⟨"qux", ["author", "description"]⟩ := by
  constructor
  · intro es
    induction es with
    | nil => intro _; rfl
    | cons e rest ih =>
      intro hlen
      have hrest := ih (fun x hx => hlen x (List.mem_cons_of_mem e hx))
      simp only [resolveSchema]
      by_cases hinc : (e.breadcrumb.contains "properties" && e.selected) = true
      · have h2 : 2 ≤ e.breadcrumb.length := hlen e (List.mem_cons_self e rest) hinc
        cases hget : e.breadcrumb.get? 1 with
        | none =>
          rw [List.get?_eq_none] at hget
          omega
        | some name =>
          simp only [hinc, if_true, hrest]
          simp only [List.filter_cons, if_pos hinc, List.map_cons]
          have hget2 : e.breadcrumb[1]? = some name := by
            rw [← List.get?_eq_getElem?]
            exact hget
          simp [hget2]
      · rw [if_neg hinc, hrest]
        simp only [List.filter_cons]
        rw [if_neg hinc]
  · rfl

/-- Witness for C9 (amended) at the section-8 fixture metadata. -/
theorem claim_C9_witness :
    resolveSchema fixtureMetadata
      = .ok ((fixtureMetadata.filter
            (fun e => e.breadcrumb.contains "properties" && e.selected)).map
          (fun e => (e.breadcrumb.get? 1).getD "")) :=
  claim_C9_schema_filter.1 fixtureMetadata (by decide)

/-- C10: with `load_timeout` omitted (`None`), the call can never
produce the load-timeout Failure, for any configuration (including one
whose `default_load_timeout` is set): the source resolves
`poll_interval` and `extraction_timeout` against their configured
defaults but never reads `self._default_load_timeout`, so the call's
outcome is independent of that default. -/
theorem claim_C10_load_timeout_never_defaulted :
    (∀ (cfg : StitchResourceCfg) (env : Env) (ds : String) (pollI extT : Option Rat),
        isLoadTimeout (start_replication_job_and_poll cfg env ds pollI extT none) = false)
    ∧ (∀ cfg : StitchResourceCfg,
        resolvePollInterval cfg none = cfg.default_poll_interval
        ∧ resolveExtractionTimeout cfg none = cfg.default_extraction_timeout)
    ∧ (∀ (cfg : StitchResourceCfg) (env : Env) (ds : String)
        (pollI extT loadT dflt : Option Rat),
        start_replication_job_and_poll { cfg with default_load_timeout := dflt }
            env ds pollI extT loadT
          = start_replication_job_and_poll cfg env ds pollI extT loadT) := by
  refine ⟨?_, fun cfg => ⟨rfl, rfl⟩, fun cfg env ds pollI extT loadT dflt => rfl⟩
  intro cfg env ds pollI extT
  simp only [start_replication_job_and_poll]
  cases hse : env.startResponse.error with
  | some e => simp [start_replication_job, hse, isLoadTimeout]
  | none =>
    simp only [start_replication_job, hse]
    cases hel : extractionLoop ds env.startResponse.job_name env.extractionStartNow
        (resolveExtractionTimeout cfg extT) env.extractionResponses with
    | running => rfl
    | pyError e => rfl
    | failure f =>
      show isLoadTimeout (PollResult.failure f : PollResult StitchOutput) = false
      rw [isLoadTimeout_failure_eq]
      exact extractionLoop_failure_not_loadTimeout ds env.startResponse.job_name
        env.extractionStartNow (resolveExtractionTimeout cfg extT) env.extractionResponses f hel
    | ok ext =>
      dsimp only
      cases hst : stageCheck ext with
      | some f =>
        show isLoadTimeout (PollResult.failure f : PollResult StitchOutput) = false
        rw [isLoadTimeout_failure_eq]
        exact stageCheck_not_loadTimeout ext f hst
      | none =>
        dsimp only
        cases hll : loadLoop ds (list_streams env.streamsResponse) env.loadStartNow none
            env.loadResponses with
        | running => rfl
        | pyError e => rfl
        | failure f =>
          have hx := loadLoop_none_not_loadTimeout ds (list_streams env.streamsResponse)
            env.loadStartNow env.loadResponses
          rw [hll, isLoadTimeout_failure_eq] at hx
          show isLoadTimeout (PollResult.failure f : PollResult StitchOutput) = false
          rw [isLoadTimeout_failure_eq]
          exact hx
        | ok loads =>
          cases hfs : fetchSchemas env.schemaResponse (list_streams env.streamsResponse) with
          | error e => rfl
          | ok schemas => rfl

end DagsterStitch
